import Mathlib

/-!
Shallow embedding of `IPython/kernel/blocking/channels.py`: blocking client
channels over message sockets.  Python exceptions become an error type,
the socket becomes a queue of pending multipart messages, and every
stateful method passes the channel state explicitly.
-/

/-- Python exceptions that can arise in this module.  `blocks` is not an
exception: it marks an operation that would block forever (a bare
`recv_multipart` on a socket with nothing queued), which the code never
reaches because it polls first. -/
inductive PyExc
  | empty
  | invalidPortNumber (msg : String)
  | valueError
  | keyError
  | attributeError
  | zmqError
  | blocks
deriving DecidableEq, Repr

/-- A deserialized protocol message: a type tag and a content mapping,
modelled as an association list of string keys and values (the fields the
channel layer reads are strings). -/
structure Message where
  msg_type : String
  content : List (String × String)
deriving DecidableEq, Repr

/-- A multipart wire message: leading routing-identity frames plus the
serialized payload.  The session strips the identities and deserializes
the payload. -/
structure WireMsg where
  idents : List String
  payload : Message
deriving DecidableEq, Repr

/-- Which role-specific factory produced a socket.  The factories live in
`IPython.kernel.channels`, outside this file; the tag records which one
was called. -/
inductive SocketRole
  | shell
  | iopub
  | stdin
deriving DecidableEq, Repr

/-- Modelled from the spec: the external messaging socket.  It carries the
construction arguments, the role of the factory that made it, a queue of
pending received multipart messages in arrival order, and a flag saying
whether the external close call would raise. -/
structure Socket where
  ctx : Nat
  identity : String
  bound : String
  role : SocketRole
  queue : List WireMsg
  closeFails : Bool
deriving DecidableEq, Repr

/-- Modelled from the spec: polling reports whether at least one multipart
message is ready.  In this pure model no new message can arrive during the
wait, so the result does not depend on the timeout argument; the timeout
(`none` meaning wait indefinitely, `some ms` a bound in milliseconds) is
what the caller passed and is recorded by the channel operations. -/
def Socket.poll (s : Socket) (_timeout : Option ℚ) : Bool :=
  !s.queue.isEmpty

/-- Modelled from the spec: receiving a multipart message dequeues the
oldest pending one; with nothing pending the call would block forever,
reported as `none`. -/
def Socket.recv_multipart (s : Socket) : Option (WireMsg × Socket) :=
  match s.queue with
  | [] => none
  | w :: rest => some (w, { s with queue := rest })

/-- Modelled from the spec: the external close call, which may raise. -/
def Socket.close (s : Socket) (_linger : Nat) : Except PyExc Unit :=
  if s.closeFails then .error .zmqError else .ok ()

/-- Modelled from the spec: the external `Session` collaborator, reduced to
the state the channel layer reads and writes: its identity `bsession` and
the negotiated `adapt_version`. -/
structure Session where
  bsession : String
  adapt_version : Option Int
deriving DecidableEq, Repr

/-- Modelled from the spec: `feed_identities` splits a multipart message
into its routing identities and the serialized remainder. -/
def Session.feed_identities (_s : Session) (w : WireMsg) : List String × Message :=
  (w.idents, w.payload)

/-- Modelled from the spec: deserialization of the identity-stripped
remainder into a message; the payload is already held deserialized. -/
def Session.deserialize (_s : Session) (m : Message) : Message :=
  m

/-- Modelled from the spec: the shell-role socket factory from
`IPython.kernel.channels` (not in src), taking (context, session identity,
address) and returning a bound socket. -/
def make_shell_socket (context : Nat) (ident : String) (addr : String) : Socket :=
  { ctx := context, identity := ident, bound := addr, role := SocketRole.shell,
    queue := [], closeFails := false }

/-- Modelled from the spec: the iopub-role socket factory from
`IPython.kernel.channels` (not in src). -/
def make_iopub_socket (context : Nat) (ident : String) (addr : String) : Socket :=
  { ctx := context, identity := ident, bound := addr, role := SocketRole.iopub,
    queue := [], closeFails := false }

/-- Modelled from the spec: the stdin-role socket factory from
`IPython.kernel.channels` (not in src). -/
def make_stdin_socket (context : Nat) (ident : String) (addr : String) : Socket :=
  { ctx := context, identity := ident, bound := addr, role := SocketRole.stdin,
    queue := [], closeFails := false }

/-- Modelled from the spec: `major_protocol_version` is imported from
`IPython.kernel.channels`, which is not under src; the spec fixes the
channel layer's major protocol version constant at 5 in its examples. -/
def major_protocol_version : Int := 5

/-- Which concrete channel class an instance belongs to; stands in for
Python dynamic dispatch of the overridden methods. -/
inductive ChannelKind
  | shell
  | iopub
  | stdin
deriving DecidableEq, Repr

/-- State of a `ZMQSocketChannel`: the shared context and session, the
optionally present socket (class default `None`, set by `start`, cleared by
`close`) and the stored address string. -/
structure ZMQSocketChannel where
  kind : ChannelKind
  context : Nat
  session : Session
  socket : Option Socket
  _address : String
deriving DecidableEq, Repr

/-- The constructor argument: either a pre-formed URL string or a
(host, port) pair. -/
inductive PyAddress
  | tuple (host : String) (port : Int)
  | url (s : String)
deriving DecidableEq, Repr

/-- `ZMQSocketChannel.__init__`: a tuple address with port 0 raises
`InvalidPortNumber`; otherwise a tuple is formatted as a tcp URL and a
string address is stored verbatim.  No socket exists yet. -/
def ZMQSocketChannel.init (kind : ChannelKind) (context : Nat) (session : Session)
    (address : PyAddress) : Except PyExc ZMQSocketChannel :=
  match address with
  | PyAddress.tuple host port =>
    if port = 0 then
      Except.error (PyExc.invalidPortNumber "The port number for a channel cannot be 0.")
    else
      Except.ok { kind := kind, context := context, session := session, socket := none,
                  _address := "tcp://" ++ host ++ ":" ++ toString port }
  | PyAddress.url s =>
    Except.ok { kind := kind, context := context, session := session, socket := none,
                _address := s }

/-- The `address` property. -/
def ZMQSocketChannel.address (c : ZMQSocketChannel) : String :=
  c._address

/-- Python dict lookup on the content mapping. -/
def dictGet (d : List (String × String)) (k : String) : Option String :=
  (d.find? (fun p => p.1 == k)).map (fun p => p.2)

/-- The characters before the first dot. -/
def takeUntilDot : List Char → List Char
  | [] => []
  | c :: cs => if c = '.' then [] else c :: takeUntilDot cs

/-- Python `s.split(".")[0]`: the part of the string before the first dot
(the whole string when it has no dot). -/
def splitDotHead (s : String) : String :=
  String.mk (takeUntilDot s.data)

/-- An unsigned decimal numeral read left to right; `none` on a non-digit
or on no digits at all. -/
def pyDigits : List Char → Nat → Option Nat
  | [], acc => some acc
  | c :: cs, acc =>
    if c.isDigit then pyDigits cs (acc * 10 + (c.toNat - 48)) else none

/-- The Python builtin `int` applied to a decimal string: an optional sign
followed by digits; `none` when the string is not an integer literal
(Python raises `ValueError`). -/
def pyInt (s : String) : Option Int :=
  match s.data with
  | [] => none
  | '-' :: cs =>
    match cs with
    | [] => none
    | _ => (pyDigits cs 0).map (fun n => -(n : Int))
  | '+' :: cs =>
    match cs with
    | [] => none
    | _ => (pyDigits cs 0).map (fun n => (n : Int))
  | cs => (pyDigits cs 0).map (fun n => (n : Int))

/-- `ZMQSocketChannel._recv`: receive a multipart message, feed the
identities to the session and deserialize the remainder.  A missing socket
would raise `AttributeError`; an empty queue would block. -/
def ZMQSocketChannel._recv (c : ZMQSocketChannel) :
    Except PyExc (Message × ZMQSocketChannel) :=
  match c.socket with
  | none => Except.error PyExc.attributeError
  | some sock =>
    match sock.recv_multipart with
    | none => Except.error PyExc.blocks
    | some (w, sock2) =>
      let p := c.session.feed_identities w
      Except.ok (c.session.deserialize p.2, { c with socket := some sock2 })

/-- `BlockingShellChannel._handle_kernel_info_reply`: parse the integer
before the first dot of the content's `protocol_version`; when it differs
from `major_protocol_version`, set the session's `adapt_version` to it.  A
missing key raises `KeyError`; an unparseable integer raises
`ValueError`. -/
def BlockingShellChannel.handle_kernel_info_reply (session : Session) (msg : Message) :
    Except PyExc Session :=
  match dictGet msg.content "protocol_version" with
  | none => Except.error PyExc.keyError
  | some pv =>
    match pyInt (splitDotHead pv) with
    | none => Except.error PyExc.valueError
    | some adapt_version =>
      if adapt_version ≠ major_protocol_version then
        Except.ok { session with adapt_version := some adapt_version }
      else
        Except.ok session

/-- `BlockingShellChannel._recv`: the base receive, then protocol
adaptation when the message is a `kernel_info_reply`; the message itself is
returned unchanged. -/
def BlockingShellChannel._recv (c : ZMQSocketChannel) :
    Except PyExc (Message × ZMQSocketChannel) :=
  match ZMQSocketChannel._recv c with
  | Except.error e => Except.error e
  | Except.ok (msg, c2) =>
    if msg.msg_type = "kernel_info_reply" then
      match BlockingShellChannel.handle_kernel_info_reply c2.session msg with
      | Except.error e => Except.error e
      | Except.ok s2 => Except.ok (msg, { c2 with session := s2 })
    else
      Except.ok (msg, c2)

/-- Dynamic dispatch of `self._recv()`: the shell channel overrides it, the
other channels use the base method. -/
def ZMQSocketChannel.recv_dispatch (c : ZMQSocketChannel) :
    Except PyExc (Message × ZMQSocketChannel) :=
  match c.kind with
  | ChannelKind.shell => BlockingShellChannel._recv c
  | ChannelKind.iopub => ZMQSocketChannel._recv c
  | ChannelKind.stdin => ZMQSocketChannel._recv c

/-- `ZMQSocketChannel.get_msg`: with `block` true poll with the timeout
converted from seconds to milliseconds (`none` waits indefinitely), with
`block` false poll with zero timeout; on readiness receive, otherwise raise
`Empty`.  The second component records the timeout argument of each poll
performed, for reasoning about the polling behavior. -/
def ZMQSocketChannel.get_msg (c : ZMQSocketChannel) (block : Bool) (timeout : Option ℚ) :
    Except PyExc (Message × ZMQSocketChannel) × List (Option ℚ) :=
  match c.socket with
  | none => (Except.error PyExc.attributeError, [])
  | some sock =>
    if block then
      let t : Option ℚ :=
        match timeout with
        | some secs => some (secs * 1000)
        | none => none
      ((if sock.poll t then ZMQSocketChannel.recv_dispatch c
        else Except.error PyExc.empty), [t])
    else
      ((if sock.poll (some 0) then ZMQSocketChannel.recv_dispatch c
        else Except.error PyExc.empty), [some 0])

/-- The loop body of `get_msgs`: append `get_msg(block=False)` results
until `Empty` breaks the loop; any other exception propagates.  The fuel
only bounds the recursion; `get_msgs` passes one more than the number of
queued messages, which the loop never exhausts because every successful
receive consumes one queued message. -/
def ZMQSocketChannel.get_msgs_loop :
    Nat → ZMQSocketChannel → List Message → Except PyExc (List Message × ZMQSocketChannel)
  | 0, c, acc => Except.ok (acc.reverse, c)
  | Nat.succ fuel, c, acc =>
    match ZMQSocketChannel.get_msg c false none with
    | (Except.error PyExc.empty, _) => Except.ok (acc.reverse, c)
    | (Except.error e, _) => Except.error e
    | (Except.ok (m, c2), _) => ZMQSocketChannel.get_msgs_loop fuel c2 (m :: acc)

/-- Number of messages currently queued on the channel's socket. -/
def ZMQSocketChannel.queueLen (c : ZMQSocketChannel) : Nat :=
  match c.socket with
  | none => 0
  | some sock => sock.queue.length

/-- `ZMQSocketChannel.get_msgs`: drain all currently ready messages. -/
def ZMQSocketChannel.get_msgs (c : ZMQSocketChannel) :
    Except PyExc (List Message × ZMQSocketChannel) :=
  ZMQSocketChannel.get_msgs_loop (c.queueLen + 1) c []

/-- `ZMQSocketChannel.msg_ready`: a zero-timeout poll, consuming nothing. -/
def ZMQSocketChannel.msg_ready (c : ZMQSocketChannel) :
    Except PyExc (Bool × ZMQSocketChannel) :=
  match c.socket with
  | none => Except.error PyExc.attributeError
  | some sock => Except.ok (sock.poll (some 0), c)

/-- `ZMQSocketChannel.close`: when a socket is present, close it with zero
linger swallowing any exception, and clear the slot.  The function is
total: it returns a channel for every input, so it never raises. -/
def ZMQSocketChannel.close (c : ZMQSocketChannel) : ZMQSocketChannel :=
  match c.socket with
  | none => c
  | some sock =>
    match sock.close 0 with
    | Except.ok _ => { c with socket := none }
    | Except.error _ => { c with socket := none }

/-- `stop` is an alias of `close`. -/
def ZMQSocketChannel.stop : ZMQSocketChannel → ZMQSocketChannel :=
  ZMQSocketChannel.close

/-- `ZMQSocketChannel.is_alive`: the socket slot is non-empty. -/
def ZMQSocketChannel.is_alive (c : ZMQSocketChannel) : Bool :=
  c.socket.isSome

/-- `BlockingShellChannel.start` as written in the source: it binds the
socket with `make_stdin_socket`, not `make_shell_socket`. -/
def BlockingShellChannel.start (c : ZMQSocketChannel) : ZMQSocketChannel :=
  { c with socket := some (make_stdin_socket c.context c.session.bsession c.address) }

/-- `BlockingIOPubChannel.start`. -/
def BlockingIOPubChannel.start (c : ZMQSocketChannel) : ZMQSocketChannel :=
  { c with socket := some (make_iopub_socket c.context c.session.bsession c.address) }

/-- `BlockingStdInChannel.start`. -/
def BlockingStdInChannel.start (c : ZMQSocketChannel) : ZMQSocketChannel :=
  { c with socket := some (make_stdin_socket c.context c.session.bsession c.address) }

/-- Modelled from the spec: the observable state of the parent heartbeat
channel `HBChannel` (in `IPython.kernel.channels`, not under src): the
dead-time threshold, the last-seen-beat timestamp and whether probing is
running. -/
structure HBChannelState where
  time_to_dead : ℚ
  last_beat : ℚ
  beating : Bool
deriving DecidableEq, Repr

/-- `BlockingHBChannel.time_to_dead`: the dead-timeout threshold this
subclass sets. -/
def BlockingHBChannel.time_to_dead : ℚ := 1

/-- `BlockingHBChannel.call_handlers`: the missed-heartbeat handler,
overridden to `pass`. -/
def BlockingHBChannel.call_handlers (st : HBChannelState) (_since_last_heartbeat : ℚ) :
    HBChannelState :=
  st

/-- The receive path of a channel succeeds on a message when either the
channel is not the shell channel, the message is not a
`kernel_info_reply`, or the content's `protocol_version` is present with a
parseable integer before the first dot. -/
def shellGood (k : ChannelKind) (m : Message) : Bool :=
  if k = ChannelKind.shell ∧ m.msg_type = "kernel_info_reply" then
    (Option.bind (dictGet m.content "protocol_version")
      (fun pv => pyInt (splitDotHead pv))).isSome
  else
    true

/-- A sample session for concrete evaluations. -/
def sampleSession : Session :=
  { bsession := "b", adapt_version := none }

/-- A sample non-reply message. -/
def sampleMsg : Message :=
  { msg_type := "execute_reply", content := [] }

/-- A second sample message, distinguishable from the first. -/
def sampleMsg2 : Message :=
  { msg_type := "stream", content := [("text", "hi")] }

/-- A sample wire message around `sampleMsg`. -/
def sampleWire : WireMsg :=
  { idents := ["id1"], payload := sampleMsg }

/-- A second sample wire message. -/
def sampleWire2 : WireMsg :=
  { idents := [], payload := sampleMsg2 }

/-- A sample socket holding the given queue. -/
def sampleSock (q : List WireMsg) : Socket :=
  { ctx := 0, identity := "b", bound := "tcp://127.0.0.1:5555",
    role := SocketRole.iopub, queue := q, closeFails := false }

/-- A sample started channel of the given kind holding the given queue. -/
def sampleChan (k : ChannelKind) (q : List WireMsg) : ZMQSocketChannel :=
  { kind := k, context := 0, session := sampleSession,
    socket := some (sampleSock q), _address := "tcp://127.0.0.1:5555" }

/-- C1: the claim says `BlockingShellChannel.start` binds the socket with
the shell-role factory; the source instead calls `make_stdin_socket` with
the channel's context, session identity and address, so the bound socket
comes from the stdin-role factory, which is distinct from the shell-role
factory.  Evaluated at a concrete shell channel. -/
theorem shell_start_binds_stdin_factory :
    BlockingShellChannel.start
        { kind := ChannelKind.shell, context := 7,
          session := { bsession := "b", adapt_version := none },
          socket := none, _address := "tcp://127.0.0.1:5555" } =
      { kind := ChannelKind.shell, context := 7,
        session := { bsession := "b", adapt_version := none },
        socket := some (make_stdin_socket 7 "b" "tcp://127.0.0.1:5555"),
        _address := "tcp://127.0.0.1:5555" } ∧
    (make_stdin_socket 7 "b" "tcp://127.0.0.1:5555").role = SocketRole.stdin ∧
    (make_shell_socket 7 "b" "tcp://127.0.0.1:5555").role = SocketRole.shell ∧
    SocketRole.stdin ≠ SocketRole.shell :=
  ⟨rfl, rfl, rfl, by decide⟩

/-- C3: constructing any channel from a (host, port) tuple with port 0
fails with `InvalidPortNumber`, for every host, kind, context and session;
no channel state is produced. -/
theorem init_port_zero_invalid (kind : ChannelKind) (context : Nat) (session : Session)
    (host : String) :
    ZMQSocketChannel.init kind context session (PyAddress.tuple host 0) =
      Except.error (PyExc.invalidPortNumber "The port number for a channel cannot be 0.") := by
  simp [ZMQSocketChannel.init]

/-- C5: `close` never raises (it is a total function, whatever the
external socket close does), it empties the socket slot, a second `close`
changes nothing, and `is_alive` is false afterwards. -/
theorem close_idempotent_and_kills (c : ZMQSocketChannel) :
    ZMQSocketChannel.close c = { c with socket := none } ∧
    ZMQSocketChannel.close (ZMQSocketChannel.close c) = ZMQSocketChannel.close c ∧
    ZMQSocketChannel.is_alive (ZMQSocketChannel.close c) = false := by
  obtain ⟨k, ctx, sess, sock, addr⟩ := c
  cases sock with
  | none => exact ⟨rfl, rfl, rfl⟩
  | some s =>
    obtain ⟨sctx, idnt, bnd, role, q, cf⟩ := s
    cases cf <;> exact ⟨rfl, rfl, rfl⟩

/-- C9: the blocking heartbeat channel sets its dead-timeout threshold to
1 time unit, and its missed-heartbeat handler is a no-op: for every state
and every since-last-heartbeat argument it returns the state unchanged. -/
theorem hb_threshold_one_and_handler_noop :
    BlockingHBChannel.time_to_dead = 1 ∧
    ∀ (st : HBChannelState) (t : ℚ), BlockingHBChannel.call_handlers st t = st :=
  ⟨rfl, fun _ _ => rfl⟩

/-- C10: constructing a channel from any pre-formed URL string succeeds
(never raises `InvalidPortNumber`, also for strings such as
"tcp://host:0"), and the `address` property returns that exact string
verbatim. -/
theorem init_url_verbatim (kind : ChannelKind) (context : Nat) (session : Session)
    (s : String) :
    ZMQSocketChannel.init kind context session (PyAddress.url s) =
      Except.ok { kind := kind, context := context, session := session, socket := none,
                  _address := s } ∧
    ZMQSocketChannel.address
        { kind := kind, context := context, session := session, socket := none,
          _address := s } = s :=
  ⟨rfl, rfl⟩

/-- Helper: the base receive on a channel whose socket has a queued
message dequeues it and returns its payload. -/
theorem recv_base_cons (c : ZMQSocketChannel) (sock : Socket) (w : WireMsg)
    (rest : List WireMsg) (hs : c.socket = some sock) (hq : sock.queue = w :: rest) :
    ZMQSocketChannel._recv c =
      Except.ok (w.payload, { c with socket := some { sock with queue := rest } }) := by
  simp [ZMQSocketChannel._recv, hs, Socket.recv_multipart, hq,
    Session.feed_identities, Session.deserialize]

/-- Helper: dispatched receive on a channel with a queued message whose
shell-side handling cannot fail returns the payload, dequeues it, and only
possibly updates the session, keeping its identity. -/
theorem recv_dispatch_cons (c : ZMQSocketChannel) (sock : Socket) (w : WireMsg)
    (rest : List WireMsg) (hs : c.socket = some sock) (hq : sock.queue = w :: rest)
    (hg : shellGood c.kind w.payload = true) :
    ∃ s2 : Session,
      ZMQSocketChannel.recv_dispatch c =
        Except.ok (w.payload,
          { c with socket := some { sock with queue := rest }, session := s2 }) ∧
      s2.bsession = c.session.bsession := by
  have hbase := recv_base_cons c sock w rest hs hq
  cases hk : c.kind with
  | iopub =>
    exact ⟨c.session, by simp [ZMQSocketChannel.recv_dispatch, hk, hbase], rfl⟩
  | stdin =>
    exact ⟨c.session, by simp [ZMQSocketChannel.recv_dispatch, hk, hbase], rfl⟩
  | shell =>
    by_cases hkir : w.payload.msg_type = "kernel_info_reply"
    · have hg2 : (Option.bind (dictGet w.payload.content "protocol_version")
          (fun pv => pyInt (splitDotHead pv))).isSome = true := by
        simpa [shellGood, hk, hkir] using hg
      cases hpv : dictGet w.payload.content "protocol_version" with
      | none => simp [hpv] at hg2
      | some pv =>
        cases hv : pyInt (splitDotHead pv) with
        | none => simp [hpv, hv] at hg2
        | some v =>
          refine ⟨if v ≠ major_protocol_version then
              { c.session with adapt_version := some v } else c.session, ?_, ?_⟩
          · by_cases hne : v = major_protocol_version <;>
              simp [ZMQSocketChannel.recv_dispatch, hk, BlockingShellChannel._recv,
                hbase, hkir, BlockingShellChannel.handle_kernel_info_reply, hpv, hv, hne]
          · by_cases hne : v = major_protocol_version <;> simp [hne]
    · exact ⟨c.session,
        by simp [ZMQSocketChannel.recv_dispatch, hk, BlockingShellChannel._recv,
          hbase, hkir], rfl⟩

/-- C2: on the shell channel, receiving a queued `kernel_info_reply`
message whose `protocol_version` has integer `v` before the first dot
still returns the message to the caller, and sets the session's
`adapt_version` to `v` exactly when `v` differs from
`major_protocol_version`, leaving the session unchanged otherwise. -/
theorem shell_recv_adapts_protocol_version (c : ZMQSocketChannel) (sock : Socket)
    (w : WireMsg) (rest : List WireMsg) (pv : String) (v : Int)
    (hs : c.socket = some sock) (hq : sock.queue = w :: rest)
    (hm : w.payload.msg_type = "kernel_info_reply")
    (hpv : dictGet w.payload.content "protocol_version" = some pv)
    (hv : pyInt (splitDotHead pv) = some v) :
    BlockingShellChannel._recv c =
      Except.ok (w.payload,
        { c with socket := some { sock with queue := rest },
                 session := if v ≠ major_protocol_version then
                     { c.session with adapt_version := some v }
                   else c.session }) := by
  have hbase := recv_base_cons c sock w rest hs hq
  by_cases hne : v = major_protocol_version <;>
    simp [BlockingShellChannel._recv, hbase, hm,
      BlockingShellChannel.handle_kernel_info_reply, hpv, hv, hne]

/-- A queued `kernel_info_reply` carrying protocol version 4.1. -/
def wireReply41 : WireMsg :=
  { idents := [],
    payload := { msg_type := "kernel_info_reply",
                 content := [("protocol_version", "4.1")] } }

/-- A queued `kernel_info_reply` carrying protocol version 5.0. -/
def wireReply50 : WireMsg :=
  { idents := [],
    payload := { msg_type := "kernel_info_reply",
                 content := [("protocol_version", "5.0")] } }

/-- A concrete shell channel holding one queued wire message. -/
def shellChanWith (w : WireMsg) : ZMQSocketChannel :=
  { kind := ChannelKind.shell, context := 0, session := sampleSession,
    socket := some (sampleSock [w]), _address := "tcp://127.0.0.1:5555" }

/-- C2 witness: a shell channel whose queued `kernel_info_reply` carries
`protocol_version` "4.1" returns the message with `adapt_version` set to
4, and one carrying "5.0" (the constant being 5) returns the message with
the session unchanged. -/
theorem shell_recv_adapts_protocol_version_witness :
    (BlockingShellChannel._recv (shellChanWith wireReply41) =
      Except.ok (wireReply41.payload,
        { shellChanWith wireReply41 with
          socket := some { sampleSock [wireReply41] with queue := [] },
          session := if (4 : Int) ≠ major_protocol_version then
              { (shellChanWith wireReply41).session with adapt_version := some 4 }
            else (shellChanWith wireReply41).session })) ∧
    (BlockingShellChannel._recv (shellChanWith wireReply50) =
      Except.ok (wireReply50.payload,
        { shellChanWith wireReply50 with
          socket := some { sampleSock [wireReply50] with queue := [] },
          session := if (5 : Int) ≠ major_protocol_version then
              { (shellChanWith wireReply50).session with adapt_version := some 5 }
            else (shellChanWith wireReply50).session })) :=
  ⟨shell_recv_adapts_protocol_version (shellChanWith wireReply41) (sampleSock [wireReply41])
      wireReply41 [] "4.1" 4 rfl rfl rfl (by decide) (by decide),
   shell_recv_adapts_protocol_version (shellChanWith wireReply50) (sampleSock [wireReply50])
      wireReply50 [] "5.0" 5 rfl rfl rfl (by decide) (by decide)⟩

/-- C8: `msg_ready` performs a zero-timeout poll of the socket, returns
true exactly when at least one message is queued, and returns the channel
state unchanged, consuming nothing. -/
theorem msg_ready_iff_poll_no_consume (c : ZMQSocketChannel) (sock : Socket)
    (hs : c.socket = some sock) :
    ZMQSocketChannel.msg_ready c = Except.ok (sock.poll (some 0), c) ∧
    (ZMQSocketChannel.msg_ready c = Except.ok (true, c) ↔ sock.queue ≠ []) := by
  constructor
  · simp [ZMQSocketChannel.msg_ready, hs]
  · simp [ZMQSocketChannel.msg_ready, hs, Socket.poll, List.isEmpty_iff]

/-- C8 witness: on a concrete channel with one queued message,
`msg_ready` is true and consumes nothing. -/
theorem msg_ready_iff_poll_no_consume_witness :
    (sampleChan ChannelKind.iopub [sampleWire]).socket = some (sampleSock [sampleWire]) ∧
    ZMQSocketChannel.msg_ready (sampleChan ChannelKind.iopub [sampleWire]) =
      Except.ok ((sampleSock [sampleWire]).poll (some 0),
        sampleChan ChannelKind.iopub [sampleWire]) ∧
    (ZMQSocketChannel.msg_ready (sampleChan ChannelKind.iopub [sampleWire]) =
        Except.ok (true, sampleChan ChannelKind.iopub [sampleWire]) ↔
      (sampleSock [sampleWire]).queue ≠ []) :=
  ⟨rfl,
   (msg_ready_iff_poll_no_consume (sampleChan ChannelKind.iopub [sampleWire])
     (sampleSock [sampleWire]) rfl).1,
   (msg_ready_iff_poll_no_consume (sampleChan ChannelKind.iopub [sampleWire])
     (sampleSock [sampleWire]) rfl).2⟩

/-- C6: `get_msg` with `block` false performs exactly one poll, with zero
timeout.  With nothing queued it returns the `Empty` condition and no new
channel state, so nothing is consumed; with a queued message whose
shell-side handling cannot fail it receives and returns the deserialized
message. -/
theorem get_msg_nonblocking (c : ZMQSocketChannel) (sock : Socket) (t : Option ℚ)
    (hs : c.socket = some sock) :
    (sock.queue = [] →
      ZMQSocketChannel.get_msg c false t = (Except.error PyExc.empty, [some 0])) ∧
    (∀ w rest, sock.queue = w :: rest → shellGood c.kind w.payload = true →
      ∃ c2, ZMQSocketChannel.get_msg c false t = (Except.ok (w.payload, c2), [some 0])) := by
  constructor
  · intro hq
    simp [ZMQSocketChannel.get_msg, hs, Socket.poll, hq]
  · intro w rest hq hg
    obtain ⟨s2, hrd, _⟩ := recv_dispatch_cons c sock w rest hs hq hg
    refine ⟨{ c with socket := some { sock with queue := rest }, session := s2 }, ?_⟩
    simp [ZMQSocketChannel.get_msg, hs, Socket.poll, hq, hrd]

/-- C6 witness: on a concrete channel, `get_msg(block := false)` raises
`Empty` when nothing is queued and returns the queued message when one
is. -/
theorem get_msg_nonblocking_witness :
    ((sampleChan ChannelKind.iopub []).socket = some (sampleSock []) ∧
      ZMQSocketChannel.get_msg (sampleChan ChannelKind.iopub []) false none =
        (Except.error PyExc.empty, [some 0])) ∧
    ((sampleChan ChannelKind.iopub [sampleWire]).socket = some (sampleSock [sampleWire]) ∧
      ∃ c2, ZMQSocketChannel.get_msg (sampleChan ChannelKind.iopub [sampleWire]) false none =
        (Except.ok (sampleMsg, c2), [some 0])) :=
  ⟨⟨rfl, (get_msg_nonblocking (sampleChan ChannelKind.iopub []) (sampleSock []) none rfl).1 rfl⟩,
   ⟨rfl, (get_msg_nonblocking (sampleChan ChannelKind.iopub [sampleWire])
      (sampleSock [sampleWire]) none rfl).2 sampleWire [] rfl (by decide)⟩⟩

/-- C7: `get_msg` with `block` true polls once with the finite timeout
converted from seconds to milliseconds, or waits indefinitely (timeout
argument `none`) when no timeout is given; if the poll ends without
readiness the `Empty` condition is raised. -/
theorem get_msg_blocking_timeout (c : ZMQSocketChannel) (sock : Socket)
    (hs : c.socket = some sock) :
    (∀ t : ℚ, (ZMQSocketChannel.get_msg c true (some t)).2 = [some (t * 1000)]) ∧
    (ZMQSocketChannel.get_msg c true none).2 = [none] ∧
    (sock.queue = [] → ∀ timeout : Option ℚ,
      (ZMQSocketChannel.get_msg c true timeout).1 = Except.error PyExc.empty) := by
  refine ⟨?_, ?_, ?_⟩
  · intro t
    simp [ZMQSocketChannel.get_msg, hs]
  · simp [ZMQSocketChannel.get_msg, hs]
  · intro hq timeout
    simp [ZMQSocketChannel.get_msg, hs, Socket.poll, hq]

/-- C7 witness: on a concrete empty channel, a blocking `get_msg` with a
2.5-second timeout polls with 2500 milliseconds and raises `Empty`, and
one with no timeout polls with an indefinite wait. -/
theorem get_msg_blocking_timeout_witness :
    (sampleChan ChannelKind.stdin []).socket = some (sampleSock []) ∧
    (ZMQSocketChannel.get_msg (sampleChan ChannelKind.stdin []) true
      (some ((5 : ℚ) / 2))).2 = [some ((5 : ℚ) / 2 * 1000)] ∧
    (ZMQSocketChannel.get_msg (sampleChan ChannelKind.stdin []) true none).2 = [none] ∧
    (ZMQSocketChannel.get_msg (sampleChan ChannelKind.stdin []) true
      (some ((5 : ℚ) / 2))).1 = Except.error PyExc.empty :=
  ⟨rfl,
   (get_msg_blocking_timeout (sampleChan ChannelKind.stdin []) (sampleSock []) rfl).1 ((5 : ℚ) / 2),
   (get_msg_blocking_timeout (sampleChan ChannelKind.stdin []) (sampleSock []) rfl).2.1,
   (get_msg_blocking_timeout (sampleChan ChannelKind.stdin []) (sampleSock [])
     rfl).2.2 rfl (some ((5 : ℚ) / 2))⟩

/-- Helper: the `get_msgs` loop, run with one unit of fuel more than the
number of queued messages, returns the accumulator followed by every
queued payload in arrival order and leaves the queue empty. -/
theorem get_msgs_loop_drain :
    ∀ (q : List WireMsg) (c : ZMQSocketChannel) (sock : Socket) (acc : List Message),
      c.socket = some sock → sock.queue = q →
      (∀ w ∈ q, shellGood c.kind w.payload = true) →
      ∃ (c2 : ZMQSocketChannel) (sock2 : Socket),
        ZMQSocketChannel.get_msgs_loop (q.length + 1) c acc =
          Except.ok (acc.reverse ++ q.map WireMsg.payload, c2) ∧
        c2.socket = some sock2 ∧ sock2.queue = [] := by
  intro q
  induction q with
  | nil =>
    intro c sock acc hs hq _
    refine ⟨c, sock, ?_, hs, hq⟩
    simp [ZMQSocketChannel.get_msgs_loop, ZMQSocketChannel.get_msg, hs, Socket.poll, hq]
  | cons w rest ih =>
    intro c sock acc hs hq hg
    obtain ⟨s2, hrd, _⟩ := recv_dispatch_cons c sock w rest hs hq (hg w (by simp))
    have hget : ZMQSocketChannel.get_msg c false none =
        (Except.ok (w.payload,
          { c with socket := some { sock with queue := rest }, session := s2 }), [some 0]) := by
      simp [ZMQSocketChannel.get_msg, hs, Socket.poll, hq, hrd]
    obtain ⟨c2, sock2, hloop, hs2, hq2⟩ :=
      ih { c with socket := some { sock with queue := rest }, session := s2 }
        { sock with queue := rest } (w.payload :: acc) rfl rfl
        (fun w2 hw2 => hg w2 (by simp [hw2]))
    refine ⟨c2, sock2, ?_, hs2, hq2⟩
    have hstep : ZMQSocketChannel.get_msgs_loop ((w :: rest).length + 1) c acc =
        ZMQSocketChannel.get_msgs_loop (rest.length + 1)
          { c with socket := some { sock with queue := rest }, session := s2 }
          (w.payload :: acc) := by
      simp [ZMQSocketChannel.get_msgs_loop, hget]
    rw [hstep, hloop]
    simp

/-- C4: `get_msgs` drains the ready messages: with nothing queued it
returns the empty sequence, and with exactly the queued messages ready
(each receivable without a shell-side failure) it returns exactly their
payloads in arrival order, after which a subsequent call returns the
empty sequence. -/
theorem get_msgs_drains_in_order (c : ZMQSocketChannel) (sock : Socket)
    (hs : c.socket = some sock)
    (hg : ∀ w ∈ sock.queue, shellGood c.kind w.payload = true) :
    ∃ c2, ZMQSocketChannel.get_msgs c = Except.ok (sock.queue.map WireMsg.payload, c2) ∧
      ZMQSocketChannel.get_msgs c2 = Except.ok ([], c2) := by
  obtain ⟨c2, sock2, hloop, hs2, hq2⟩ :=
    get_msgs_loop_drain sock.queue c sock [] hs rfl hg
  refine ⟨c2, ?_, ?_⟩
  · have hlen : c.queueLen = sock.queue.length := by
      simp [ZMQSocketChannel.queueLen, hs]
    simp only [ZMQSocketChannel.get_msgs, hlen]
    simpa using hloop
  · have hlen2 : c2.queueLen = 0 := by
      simp [ZMQSocketChannel.queueLen, hs2, hq2]
    simp only [ZMQSocketChannel.get_msgs, hlen2]
    simp [ZMQSocketChannel.get_msgs_loop, ZMQSocketChannel.get_msg, hs2, Socket.poll, hq2]

/-- C4 witness: a channel with two queued messages yields exactly their
two payloads in arrival order, and draining again yields the empty
sequence; a channel with nothing queued yields the empty sequence. -/
theorem get_msgs_drains_in_order_witness :
    ((sampleChan ChannelKind.iopub [sampleWire, sampleWire2]).socket =
        some (sampleSock [sampleWire, sampleWire2]) ∧
      ∃ c2, ZMQSocketChannel.get_msgs (sampleChan ChannelKind.iopub [sampleWire, sampleWire2]) =
          Except.ok ([sampleMsg, sampleMsg2], c2) ∧
        ZMQSocketChannel.get_msgs c2 = Except.ok ([], c2)) ∧
    ((sampleChan ChannelKind.iopub []).socket = some (sampleSock []) ∧
      ∃ c2, ZMQSocketChannel.get_msgs (sampleChan ChannelKind.iopub []) =
          Except.ok ([], c2) ∧
        ZMQSocketChannel.get_msgs c2 = Except.ok ([], c2)) :=
  ⟨⟨rfl, get_msgs_drains_in_order (sampleChan ChannelKind.iopub [sampleWire, sampleWire2])
      (sampleSock [sampleWire, sampleWire2]) rfl (by decide)⟩,
   ⟨rfl, get_msgs_drains_in_order (sampleChan ChannelKind.iopub [])
      (sampleSock []) rfl (by decide)⟩⟩
